import Mathlib

/-!
Shallow embedding of `main.go` of the redis_exporter repository: the
configuration resolvers (`getEnv`, `getEnvBool`, `getEnvInt64` composed with
the flag package's default mechanism), the parsing routines they rely on
(strconv.ParseBool, strconv.ParseInt base 10 bit size 64, and the
time.ParseDuration grammar), and the sequential control flow of `main`
(fatal checks, password/script loading, the serving goroutine, and the
signal-driven graceful shutdown), modelled as an event trace.
-/

/-- Model of the process environment: an association list of variable
names to values, looked up like `os.LookupEnv`. -/
abbrev Env := List (String × String)

/-- Model of `os.LookupEnv`: the value of the first binding of `key`,
or `none` when the variable is unset. -/
def lookupEnv (env : Env) (key : String) : Option String :=
  env.lookup key

/-- Model of `strconv.ParseBool`: accepts exactly 1, t, T, TRUE, true,
True, 0, f, F, FALSE, false, False; anything else is a parse error. -/
def parseBool : String → Option Bool
  | "1" => some true
  | "t" => some true
  | "T" => some true
  | "TRUE" => some true
  | "true" => some true
  | "True" => some true
  | "0" => some false
  | "f" => some false
  | "F" => some false
  | "FALSE" => some false
  | "false" => some false
  | "False" => some false
  | _ => none

/-- Numeric value of a list of decimal digit characters. -/
def digitsVal (ds : List Char) : Nat :=
  ds.foldl (fun a c => a * 10 + (c.toNat - 48)) 0

/-- Model of `strconv.ParseInt(s, 10, 64)`: an optional sign followed by a
non-empty run of decimal digits, with the value required to fit in a
signed 64-bit integer; any other input is a parse error. -/
def parseInt64 (s : String) : Option Int :=
  let (neg, ds) :=
    match s.data with
    | '-' :: r => (true, r)
    | '+' :: r => (false, r)
    | r => (false, r)
  if ds = [] then none
  else if ds.all Char.isDigit then
    let v : Int := if neg then -((digitsVal ds : Nat) : Int) else ((digitsVal ds : Nat) : Int)
    if -(2 ^ 63) ≤ v ∧ v ≤ 2 ^ 63 - 1 then some v else none
  else none

/-- Nanoseconds per unit, the unit map of `time.ParseDuration`
(ns, us, µs, μs, ms, s, m, h). -/
def durUnitNs (u : List Char) : Option Nat :=
  match u with
  | ['n', 's'] => some 1
  | ['u', 's'] => some 1000
  | ['µ', 's'] => some 1000
  | ['μ', 's'] => some 1000
  | ['m', 's'] => some 1000000
  | ['s'] => some 1000000000
  | ['m'] => some 60000000000
  | ['h'] => some 3600000000000
  | _ => none

/-- Longest digit run at the head of a character list, with the remainder. -/
def spanDigits : List Char → List Char × List Char
  | [] => ([], [])
  | c :: cs =>
    if c.isDigit then
      let (d, r) := spanDigits cs
      (c :: d, r)
    else ([], c :: cs)

/-- Longest run of unit characters (neither a digit nor a dot) at the head
of a character list, with the remainder. -/
def spanUnit : List Char → List Char × List Char
  | [] => ([], [])
  | c :: cs =>
    if c.isDigit || c = '.' then ([], c :: cs)
    else
      let (u, r) := spanUnit cs
      (c :: u, r)

/-- Loop of `time.ParseDuration` over the groups `[0-9]*(\.[0-9]*)?unit`:
each group needs digits before or after the dot and a recognized unit.
Fractions are accumulated with integer arithmetic (the exact numeric value
of a fraction is irrelevant to the embedded control flow, which only
inspects parse success). Fuel decreases on each group; every accepted group
consumes at least its unit character, so fuel `length + 1` never runs out. -/
def parseDurGroups : Nat → List Char → Option Nat
  | _, [] => some 0
  | 0, _ => none
  | Nat.succ fuel, cs =>
    let (pre, r1) := spanDigits cs
    let step : Bool × List Char × List Char :=
      match r1 with
      | '.' :: r =>
        let (f, r2) := spanDigits r
        (true, f, r2)
      | _ => (false, [], r1)
    let dotSeen := step.1
    let fr := step.2.1
    let r2 := step.2.2
    if pre = [] ∧ (dotSeen = false ∨ fr = []) then none
    else
      let (u, r3) := spanUnit r2
      if u = [] then none
      else
        match durUnitNs u with
        | none => none
        | some unit =>
          match parseDurGroups fuel r3 with
          | none => none
          | some rest =>
            some (digitsVal pre * unit + digitsVal fr * unit / 10 ^ fr.length + rest)

/-- Model of `time.ParseDuration`: optional sign, the special case "0",
otherwise a non-empty sequence of number-unit groups; the result is the
signed nanosecond count, required to fit in a signed 64-bit integer. -/
def parseDuration (s : String) : Option Int :=
  let (neg, cs) :=
    match s.data with
    | '-' :: r => (true, r)
    | '+' :: r => (false, r)
    | r => (false, r)
  if cs = ['0'] then some 0
  else if cs = [] then none
  else
    match parseDurGroups (cs.length + 1) cs with
    | none => none
    | some n =>
      let v : Int := if neg then -(n : Int) else (n : Int)
      if -(2 ^ 63) ≤ v ∧ v ≤ 2 ^ 63 - 1 then some v else none

/-- Model of `getEnv` in main.go: the environment value when the variable
is set, the declared default otherwise. -/
def getEnv (env : Env) (key defaultVal : String) : String :=
  match lookupEnv env key with
  | some v => v
  | none => defaultVal

/-- Model of `getEnvBool` in main.go: the parsed environment value when the
variable is set and `strconv.ParseBool` succeeds on it, the declared
default otherwise (a parse failure is silently discarded). -/
def getEnvBool (env : Env) (key : String) (defaultVal : Bool) : Bool :=
  match lookupEnv env key with
  | some v =>
    match parseBool v with
    | some b => b
    | none => defaultVal
  | none => defaultVal

/-- Model of `getEnvInt64` in main.go: the parsed environment value when
the variable is set and `strconv.ParseInt` succeeds on it, the declared
default otherwise (a parse failure is silently discarded). -/
def getEnvInt64 (env : Env) (key : String) (defaultVal : Int) : Int :=
  match lookupEnv env key with
  | some v =>
    match parseInt64 v with
    | some n => n
    | none => defaultVal
  | none => defaultVal

/-- Resolution of a string option: main.go registers each string flag as
`flag.String(name, getEnv(ENV, default), ...)`, so after `flag.Parse` the
value is the explicit command-line argument when one was supplied and the
`getEnv` result otherwise. `arg` is the explicitly supplied argument, when
present. -/
def resolveString (arg : Option String) (env : Env) (key defaultVal : String) : String :=
  match arg with
  | some a => a
  | none => getEnv env key defaultVal

/-- Resolution of a boolean option, from `flag.Bool(name, getEnvBool(ENV,
default), ...)`: the explicit argument when supplied, the `getEnvBool`
result otherwise. -/
def resolveBool (arg : Option Bool) (env : Env) (key : String) (defaultVal : Bool) : Bool :=
  match arg with
  | some a => a
  | none => getEnvBool env key defaultVal

/-- Resolution of a 64-bit integer option, from `flag.Int64(name,
getEnvInt64(ENV, default), ...)`: the explicit argument when supplied, the
`getEnvInt64` result otherwise. -/
def resolveInt64 (arg : Option Int) (env : Env) (key : String) (defaultVal : Int) : Int :=
  match arg with
  | some a => a
  | none => getEnvInt64 env key defaultVal

/-- Termination signals registered by `signal.Notify(quit, syscall.SIGINT,
syscall.SIGTERM)`. -/
inductive Sig where
  | sigint
  | sigterm
deriving DecidableEq

/-- Model of the error values the serve loop can return, with wrapping so
that the `errors.Is` chain walk is meaningful: `serverClosed` is the
`http.ErrServerClosed` sentinel, `errMsg` any other leaf error, `wrap` an
error wrapping another. -/
inductive HErr where
  | serverClosed
  | errMsg (msg : String)
  | wrap (msg : String) (inner : HErr)
deriving DecidableEq

/-- Model of `errors.Is(err, http.ErrServerClosed)`: identity at the leaf,
unwrapping through wrapped errors. -/
def errorsIsServerClosed : HErr → Bool
  | .serverClosed => true
  | .errMsg _ => false
  | .wrap _ e => errorsIsServerClosed e

/-- Observable events of one run of `main`, in program order. The `fatal`
events model calls to `log.Fatal`/`log.Fatalf`, which terminate the
process. -/
inductive Event where
  | parseTimeoutOk
  | fatalTimeoutParse
  | loadPwdFile
  | fatalPwdLoad
  | loadScript (path : String)
  | fatalScriptLoad (path : String)
  | newExporterOk
  | fatalNewExporter
  | fatalClientPairMismatch
  | createClientTLS
  | fatalClientTLS
  | spawnWorker
  | buildServerTLS
  | fatalServerTLS
  | serveTLS
  | servePlain
  | fatalServeError
  | recvSignal (sig : Sig)
  | shutdownBegin (boundSeconds : Nat)
  | fatalShutdownTimeout
  | shutdownGraceful
deriving DecidableEq

/-- The shutdown bound of `main`: `context.WithTimeout(context.Background(),
10*time.Second)`, in seconds. -/
def shutdownTimeoutSeconds : Nat := 10

/-- The configuration fields of main.go that the embedded control flow
branches on, holding the resolved flag values. -/
structure Config where
  redisPwd : String
  redisPwdFile : String
  scriptPath : String
  connectionTimeout : String
  tlsClientCertFile : String
  tlsClientKeyFile : String
  tlsServerCertFile : String
  tlsServerKeyFile : String
  tlsServerCaCertFile : String
  tlsServerMinVersion : String

/-- Outcomes of the external collaborators main.go calls into
(`exporter.LoadPwdFile`, `os.ReadFile`, `exporter.NewRedisExporter`,
`exp.CreateClientTLSConfig`, `exp.CreateServerTLSConfig`, the serve loop,
the OS signal queue, and `server.Shutdown`), supplied as oracles. -/
structure World where
  pwdFileOk : Bool
  scriptReadOk : String → Bool
  exporterOk : Bool
  clientTLSOk : Bool
  serverTLSOk : Bool
  serveResult : Option HErr
  signals : List Sig
  shutdownOk : Bool

/-- Sequential composition of traced program fragments: the second fragment
runs only when the first did not terminate the process (second component
`true` means the process died there). -/
def andThen (a b : List Event × Bool) : List Event × Bool :=
  if a.2 = true then a else (a.1 ++ b.1, b.2)

/-- Lines 136-139 of main.go: `time.ParseDuration(*connectionTimeout)`;
a parse failure is `log.Fatalf`. -/
def timeoutStage (c : Config) : List Event × Bool :=
  match parseDuration c.connectionTimeout with
  | some _ => ([.parseTimeoutOk], false)
  | none => ([.fatalTimeoutParse], true)

/-- Lines 141-147 of main.go: `exporter.LoadPwdFile` runs only when
`*redisPwd == "" && *redisPwdFile != ""`; a load failure is `log.Fatalf`. -/
def pwdStage (c : Config) (w : World) : List Event × Bool :=
  if c.redisPwd = "" ∧ c.redisPwdFile ≠ "" then
    if w.pwdFileOk then ([.loadPwdFile], false)
    else ([.loadPwdFile, .fatalPwdLoad], true)
  else ([], false)

/-- The loop of lines 153-157 of main.go: `os.ReadFile` on each script path
in order, `log.Fatalf` at the first failure. -/
def scriptLoop (w : World) : List String → List Event × Bool
  | [] => ([], false)
  | p :: rest =>
    if w.scriptReadOk p then andThen ([.loadScript p], false) (scriptLoop w rest)
    else ([.loadScript p, .fatalScriptLoad p], true)

/-- Lines 150-158 of main.go: scripts are loaded only when
`*scriptPath != ""`, after splitting on commas. -/
def scriptStage (c : Config) (w : World) : List Event × Bool :=
  if c.scriptPath = "" then ([], false)
  else scriptLoop w (c.scriptPath.splitOn ",")

/-- Lines 170-222 of main.go: `exporter.NewRedisExporter`; an error is
`log.Fatal`. -/
def exporterStage (w : World) : List Event × Bool :=
  if w.exporterOk then ([.newExporterOk], false) else ([.fatalNewExporter], true)

/-- Lines 225-227 of main.go: `if (*tlsClientCertFile != "") !=
(*tlsClientKeyFile != "") { log.Fatal(...) }`. -/
def clientPairStage (c : Config) : List Event × Bool :=
  if (c.tlsClientCertFile != "") != (c.tlsClientKeyFile != "") then
    ([.fatalClientPairMismatch], true)
  else ([], false)

/-- Lines 228-231 of main.go: `exp.CreateClientTLSConfig()`; an error is
`log.Fatal`. -/
def clientTLSStage (w : World) : List Event × Bool :=
  if w.clientTLSOk then ([.createClientTLS], false) else ([.fatalClientTLS], true)

/-- The error handling after the serve call returns (lines 248-254 of
main.go): `if err != nil && !errors.Is(err, http.ErrServerClosed)` is
`log.Fatalf`; `http.ErrServerClosed` (and a nil error) is not an error. -/
def serveHandle (r : Option HErr) : List Event × Bool :=
  match r with
  | none => ([], false)
  | some e => if errorsIsServerClosed e then ([], false) else ([.fatalServeError], true)

/-- The body of the goroutine of lines 239-256 of main.go: when
`*tlsServerCertFile != "" && *tlsServerKeyFile != ""`, the server TLS
config is built (`exp.CreateServerTLSConfig`, fatal on error), attached to
the server, and `ListenAndServeTLS` runs; otherwise `ListenAndServe` runs
in plaintext. -/
def workerBody (c : Config) (w : World) : List Event × Bool :=
  if c.tlsServerCertFile != "" && c.tlsServerKeyFile != "" then
    andThen ([.buildServerTLS], false)
      (if w.serverTLSOk then andThen ([.serveTLS], false) (serveHandle w.serveResult)
       else ([.fatalServerTLS], true))
  else
    andThen ([.servePlain], false) (serveHandle w.serveResult)

/-- Lines 258-271 of main.go: the main thread blocks on the signal channel
(capacity 1, read exactly once), logs the signal, and calls
`server.Shutdown` with the 10-second context exactly once; a shutdown
error is `log.Fatalf`, otherwise the graceful confirmation is logged. With
no pending signal the thread stays blocked and emits nothing further. -/
def signalStage (w : World) : List Event × Bool :=
  match w.signals with
  | [] => ([], false)
  | s :: _ =>
    andThen ([.recvSignal s, .shutdownBegin shutdownTimeoutSeconds], false)
      (if w.shutdownOk then ([.shutdownGraceful], false) else ([.fatalShutdownTimeout], true))

/-- The event trace of one run of `main` from the connection-timeout parse
onward, serialized in program order. The goroutine body is placed directly
after its spawn: its only events in a run that reaches the signal wait are
emitted before the wait (TLS build and the serve call), or are fatal and
end the process; the post-shutdown return of the serve loop with
`http.ErrServerClosed` emits no event, so this serialization is
observationally faithful. -/
def mainTrace (c : Config) (w : World) : List Event :=
  (andThen (timeoutStage c)
    (andThen (pwdStage c w)
      (andThen (scriptStage c w)
        (andThen (exporterStage w)
          (andThen (clientPairStage c)
            (andThen (clientTLSStage w)
              (andThen (andThen ([.spawnWorker], false) (workerBody c w))
                (signalStage w)))))))).1

/-- Number of occurrences of an event in a trace. -/
def countEv (e : Event) : List Event → Nat
  | [] => 0
  | x :: xs => (if x = e then 1 else 0) + countEv e xs

/-- Index of the first occurrence of an event in a trace (the length when
absent). -/
def idxOfEv (e : Event) : List Event → Nat
  | [] => 0
  | x :: xs => if x = e then 0 else idxOfEv e xs + 1

/-- A traced fragment after which the process is still alive. -/
abbrev alive (st : List Event × Bool) : Prop := st.2 = false

/-- All the pre-spawn stages of `main` passed without a fatal exit. -/
def preSpawnAlive (c : Config) (w : World) : Prop :=
  alive (timeoutStage c) ∧ alive (pwdStage c w) ∧ alive (scriptStage c w)
    ∧ alive (exporterStage w) ∧ alive (clientPairStage c) ∧ alive (clientTLSStage w)

theorem andThen_of_alive (a b : List Event × Bool) (h : a.2 = false) :
    andThen a b = (a.1 ++ b.1, b.2) := by
  simp [andThen, h]

theorem andThen_of_dead (a b : List Event × Bool) (h : a.2 = true) :
    andThen a b = a := by
  simp [andThen, h]

theorem mem_andThen (e : Event) (a b : List Event × Bool) :
    e ∈ (andThen a b).1 ↔ e ∈ a.1 ∨ (a.2 = false ∧ e ∈ b.1) := by
  by_cases h : a.2 = true
  · simp [andThen, h]
  · simp only [Bool.not_eq_true] at h
    simp [andThen, h]

theorem exists_alive (st : List Event × Bool) (h : alive st) : ∃ es, st = (es, false) := by
  obtain ⟨es, d⟩ := st
  cases d
  · exact ⟨es, rfl⟩
  · simp [alive] at h

theorem exists_dead (st : List Event × Bool) (h : st.2 = true) : ∃ es, st = (es, true) := by
  obtain ⟨es, d⟩ := st
  cases d
  · simp at h
  · exact ⟨es, rfl⟩

theorem countEv_cons (e x : Event) (xs : List Event) :
    countEv e (x :: xs) = (if x = e then 1 else 0) + countEv e xs := rfl

theorem countEv_append (e : Event) (l1 l2 : List Event) :
    countEv e (l1 ++ l2) = countEv e l1 + countEv e l2 := by
  induction l1 with
  | nil => simp [countEv]
  | cons x xs ih =>
    rw [List.cons_append, countEv_cons, countEv_cons, ih]
    omega

theorem countEv_eq_zero (e : Event) (l : List Event) (h : e ∉ l) : countEv e l = 0 := by
  induction l with
  | nil => rfl
  | cons x xs ih =>
    rw [List.mem_cons] at h
    push_neg at h
    rw [countEv, if_neg (fun hx => h.1 hx.symm), ih h.2]

theorem timeoutStage_shape (c : Config) :
    timeoutStage c = ([Event.parseTimeoutOk], false)
      ∨ timeoutStage c = ([Event.fatalTimeoutParse], true) := by
  unfold timeoutStage
  split <;> simp

theorem pwdStage_shape (c : Config) (w : World) :
    pwdStage c w = ([], false) ∨ pwdStage c w = ([Event.loadPwdFile], false)
      ∨ pwdStage c w = ([Event.loadPwdFile, Event.fatalPwdLoad], true) := by
  unfold pwdStage
  split
  · split <;> simp
  · simp

theorem exporterStage_shape (w : World) :
    exporterStage w = ([Event.newExporterOk], false)
      ∨ exporterStage w = ([Event.fatalNewExporter], true) := by
  unfold exporterStage
  split <;> simp

theorem clientPairStage_shape (c : Config) :
    clientPairStage c = ([Event.fatalClientPairMismatch], true)
      ∨ clientPairStage c = ([], false) := by
  unfold clientPairStage
  split <;> simp

theorem clientTLSStage_shape (w : World) :
    clientTLSStage w = ([Event.createClientTLS], false)
      ∨ clientTLSStage w = ([Event.fatalClientTLS], true) := by
  unfold clientTLSStage
  split <;> simp

theorem serveHandle_shape (r : Option HErr) :
    serveHandle r = ([], false) ∨ serveHandle r = ([Event.fatalServeError], true) := by
  unfold serveHandle
  split
  · simp
  · split <;> simp

theorem workerBody_shape (c : Config) (w : World) :
    workerBody c w = ([Event.servePlain], false)
      ∨ workerBody c w = ([Event.servePlain, Event.fatalServeError], true)
      ∨ workerBody c w = ([Event.buildServerTLS, Event.fatalServerTLS], true)
      ∨ workerBody c w = ([Event.buildServerTLS, Event.serveTLS], false)
      ∨ workerBody c w = ([Event.buildServerTLS, Event.serveTLS, Event.fatalServeError], true) := by
  unfold workerBody
  rcases serveHandle_shape w.serveResult with h | h <;>
    by_cases hc : (c.tlsServerCertFile != "" && c.tlsServerKeyFile != "") = true <;>
    by_cases hs : w.serverTLSOk = true <;>
    simp [andThen, h, hc, hs]

theorem signalStage_cons (w : World) (s : Sig) (rest : List Sig) (h : w.signals = s :: rest) :
    signalStage w
        = ([Event.recvSignal s, Event.shutdownBegin shutdownTimeoutSeconds,
            Event.shutdownGraceful], false)
      ∨ signalStage w
        = ([Event.recvSignal s, Event.shutdownBegin shutdownTimeoutSeconds,
            Event.fatalShutdownTimeout], true) := by
  by_cases hs : w.shutdownOk = true <;>
    simp [signalStage, h, andThen, hs]

theorem scriptLoop_alive_events (w : World) (ps : List String)
    (hal : (scriptLoop w ps).2 = false) (e : Event) (he : e ∈ (scriptLoop w ps).1) :
    ∃ p, e = Event.loadScript p := by
  induction ps with
  | nil => simp [scriptLoop] at he
  | cons p rest ih =>
    unfold scriptLoop at hal he
    by_cases hr : w.scriptReadOk p
    · rw [if_pos hr, andThen_of_alive _ _ rfl] at hal he
      simp only [List.cons_append, List.nil_append, List.mem_cons] at he
      rcases he with he | he
      · exact ⟨p, he⟩
      · exact ih hal he
    · rw [if_neg hr] at hal
      simp at hal

theorem scriptStage_alive_events (c : Config) (w : World)
    (hal : alive (scriptStage c w)) (e : Event) (he : e ∈ (scriptStage c w).1) :
    ∃ p, e = Event.loadScript p := by
  unfold alive at hal
  unfold scriptStage at hal he
  by_cases hs : c.scriptPath = ""
  · rw [if_pos hs] at he
    simp at he
  · rw [if_neg hs] at hal he
    exact scriptLoop_alive_events w _ hal e he

theorem scriptLoop_events (w : World) (ps : List String) (e : Event)
    (he : e ∈ (scriptLoop w ps).1) :
    ∃ p, e = Event.loadScript p ∨ e = Event.fatalScriptLoad p := by
  induction ps with
  | nil => simp [scriptLoop] at he
  | cons p rest ih =>
    unfold scriptLoop at he
    by_cases hr : w.scriptReadOk p
    · rw [if_pos hr, andThen_of_alive _ _ rfl] at he
      simp only [List.cons_append, List.nil_append, List.mem_cons] at he
      rcases he with he | he
      · exact ⟨p, Or.inl he⟩
      · exact ih he
    · rw [if_neg hr] at he
      simp only [List.mem_cons, List.not_mem_nil, or_false] at he
      rcases he with he | he
      · exact ⟨p, Or.inl he⟩
      · exact ⟨p, Or.inr he⟩

theorem scriptStage_events (c : Config) (w : World) (e : Event)
    (he : e ∈ (scriptStage c w).1) :
    ∃ p, e = Event.loadScript p ∨ e = Event.fatalScriptLoad p := by
  unfold scriptStage at he
  by_cases hs : c.scriptPath = ""
  · rw [if_pos hs] at he
    simp at he
  · rw [if_neg hs] at he
    exact scriptLoop_events w _ e he

theorem signalStage_events (w : World) (e : Event) (he : e ∈ (signalStage w).1) :
    (∃ s, e = Event.recvSignal s) ∨ e = Event.shutdownBegin shutdownTimeoutSeconds
      ∨ e = Event.shutdownGraceful ∨ e = Event.fatalShutdownTimeout := by
  rcases hsig : w.signals with _ | ⟨s, rest⟩
  · simp [signalStage, hsig] at he
  · rcases signalStage_cons w s rest hsig with h | h <;> rw [h] at he <;>
      simp at he <;> tauto

theorem mem_mainTrace_cases (c : Config) (w : World) (e : Event) (he : e ∈ mainTrace c w) :
    e ∈ (timeoutStage c).1 ∨ e ∈ (pwdStage c w).1 ∨ e ∈ (scriptStage c w).1
      ∨ e ∈ (exporterStage w).1 ∨ e ∈ (clientPairStage c).1 ∨ e ∈ (clientTLSStage w).1
      ∨ e = Event.spawnWorker ∨ e ∈ (workerBody c w).1 ∨ e ∈ (signalStage w).1 := by
  simp only [mainTrace, mem_andThen, List.mem_singleton] at he
  tauto

theorem mainTrace_timeout_dead (c : Config) (w : World) (h : (timeoutStage c).2 = true) :
    mainTrace c w = (timeoutStage c).1 := by
  obtain ⟨t1, e1⟩ := exists_dead _ h
  unfold mainTrace
  rw [e1]
  simp [andThen]

theorem mainTrace_pwd_dead (c : Config) (w : World)
    (h1 : alive (timeoutStage c)) (h2 : (pwdStage c w).2 = true) :
    mainTrace c w = (timeoutStage c).1 ++ (pwdStage c w).1 := by
  obtain ⟨t1, e1⟩ := exists_alive _ h1
  obtain ⟨t2, e2⟩ := exists_dead _ h2
  unfold mainTrace
  rw [e1, e2]
  simp [andThen]

theorem mainTrace_clientPair_dead (c : Config) (w : World)
    (h1 : alive (timeoutStage c)) (h2 : alive (pwdStage c w))
    (h3 : alive (scriptStage c w)) (h4 : alive (exporterStage w))
    (h5 : (clientPairStage c).2 = true) :
    mainTrace c w = (timeoutStage c).1 ++ (pwdStage c w).1 ++ (scriptStage c w).1
      ++ (exporterStage w).1 ++ (clientPairStage c).1 := by
  obtain ⟨t1, e1⟩ := exists_alive _ h1
  obtain ⟨t2, e2⟩ := exists_alive _ h2
  obtain ⟨t3, e3⟩ := exists_alive _ h3
  obtain ⟨t4, e4⟩ := exists_alive _ h4
  obtain ⟨t5, e5⟩ := exists_dead _ h5
  unfold mainTrace
  rw [e1, e2, e3, e4, e5]
  simp [andThen]

theorem mainTrace_decomp_alive (c : Config) (w : World)
    (hpre : preSpawnAlive c w) (hwb : alive (workerBody c w)) :
    mainTrace c w = (timeoutStage c).1 ++ (pwdStage c w).1 ++ (scriptStage c w).1
      ++ (exporterStage w).1 ++ (clientPairStage c).1 ++ (clientTLSStage w).1
      ++ Event.spawnWorker :: ((workerBody c w).1 ++ (signalStage w).1) := by
  obtain ⟨h1, h2, h3, h4, h5, h6⟩ := hpre
  obtain ⟨t1, e1⟩ := exists_alive _ h1
  obtain ⟨t2, e2⟩ := exists_alive _ h2
  obtain ⟨t3, e3⟩ := exists_alive _ h3
  obtain ⟨t4, e4⟩ := exists_alive _ h4
  obtain ⟨t5, e5⟩ := exists_alive _ h5
  obtain ⟨t6, e6⟩ := exists_alive _ h6
  obtain ⟨t7, e7⟩ := exists_alive _ hwb
  unfold mainTrace
  rw [e1, e2, e3, e4, e5, e6, e7]
  simp [andThen]

/-- A baseline configuration: every path empty, the default connection
timeout, the default minimum TLS version. -/
def baseConfig : Config where
  redisPwd := ""
  redisPwdFile := ""
  scriptPath := ""
  connectionTimeout := "15s"
  tlsClientCertFile := ""
  tlsClientKeyFile := ""
  tlsServerCertFile := ""
  tlsServerKeyFile := ""
  tlsServerCaCertFile := ""
  tlsServerMinVersion := "TLS1.2"

/-- A world in which every external call succeeds, the serve loop ends with
the server-closed sentinel, and a single interrupt signal arrives. -/
def okWorld : World where
  pwdFileOk := true
  scriptReadOk := fun _ => true
  exporterOk := true
  clientTLSOk := true
  serverTLSOk := true
  serveResult := some .serverClosed
  signals := [.sigint]
  shutdownOk := true

/-- The baseline configuration with an inbound server certificate and key
pair supplied. -/
def tlsConfig : Config :=
  { baseConfig with
      tlsServerCertFile := "server-cert.pem"
      tlsServerKeyFile := "server-key.pem" }

/-- C1: for every configuration option (string, boolean, integer, duration),
the resolved value is the explicitly supplied startup-argument value if one
was given; otherwise the environment-variable value (parsed for the declared
type); otherwise the declared default. Duration options (the connection
timeout) are resolved as strings by this same mechanism and parsed
afterwards, so the string case covers them. -/
theorem C1_option_precedence (env : Env) (key : String) (ds : String) (db : Bool) (di : Int) :
    (∀ a, resolveString (some a) env key ds = a)
  ∧ (∀ a, resolveBool (some a) env key db = a)
  ∧ (∀ a, resolveInt64 (some a) env key di = a)
  ∧ (∀ s, lookupEnv env key = some s → resolveString none env key ds = s)
  ∧ (∀ s b, lookupEnv env key = some s → parseBool s = some b →
      resolveBool none env key db = b)
  ∧ (∀ s n, lookupEnv env key = some s → parseInt64 s = some n →
      resolveInt64 none env key di = n)
  ∧ (lookupEnv env key = none →
      resolveString none env key ds = ds ∧ resolveBool none env key db = db
        ∧ resolveInt64 none env key di = di) := by
  refine ⟨fun a => rfl, fun a => rfl, fun a => rfl, ?_, ?_, ?_, ?_⟩
  · intro s hs
    simp [resolveString, getEnv, hs]
  · intro s b hs hb
    simp [resolveBool, getEnvBool, hs, hb]
  · intro s n hs hn
    simp [resolveInt64, getEnvInt64, hs, hn]
  · intro h
    simp [resolveString, resolveBool, resolveInt64, getEnv, getEnvBool, getEnvInt64, h]

/-- Concrete instantiation of C1_option_precedence: an explicit argument wins
over a set environment variable, a set environment variable wins over the
default, and the default applies when the variable is unset. -/
theorem C1_option_precedence_witness :
    resolveBool (some false) [("K", "true")] "K" true = false
    ∧ resolveBool none [("K", "true")] "K" false = true
    ∧ resolveInt64 none [("K", "42")] "K" 1000 = 42
    ∧ resolveString none [] "K" "redis://localhost:6379" = "redis://localhost:6379" := by
  refine ⟨(C1_option_precedence [("K", "true")] "K" "" true 0).2.1 false, ?_, ?_, ?_⟩
  · exact (C1_option_precedence [("K", "true")] "K" "" false 0).2.2.2.2.1 "true" true
      rfl rfl
  · exact (C1_option_precedence [("K", "42")] "K" "" false 1000).2.2.2.2.2.1 "42" 42
      rfl (by decide)
  · exact ((C1_option_precedence [] "K" "redis://localhost:6379" false 0).2.2.2.2.2.2
      rfl).1

/-- C2: for a boolean or integer option, an environment variable that is set
but fails strict parsing for the declared type resolves to the declared
default; the resolvers are total functions into the option type (they have no
error outcome at all), so nothing aborts and no error is surfaced. -/
theorem C2_env_parse_leniency (env : Env) (key s : String) (db : Bool) (di : Int)
    (hs : lookupEnv env key = some s) :
    (parseBool s = none → getEnvBool env key db = db)
  ∧ (parseInt64 s = none → getEnvInt64 env key di = di) := by
  constructor
  · intro hp
    simp [getEnvBool, hs, hp]
  · intro hp
    simp [getEnvInt64, hs, hp]

/-- Concrete instantiation of C2_env_parse_leniency: "yes" is not a valid
strconv boolean and "12x" is not a valid integer, so both resolve to their
defaults. -/
theorem C2_env_parse_leniency_witness :
    getEnvBool [("K", "yes")] "K" true = true
    ∧ getEnvInt64 [("K", "12x")] "K" 1000 = 1000 := by
  constructor
  · exact (C2_env_parse_leniency [("K", "yes")] "K" "yes" true 0 rfl).1 (by decide)
  · exact (C2_env_parse_leniency [("K", "12x")] "K" "12x" true 1000 rfl).2 (by decide)

/-- C3: with both inbound (server) certificate and key paths absent, the
worker serves the metrics endpoint in plaintext (no TLS construction at
all); with both supplied, and the server TLS context construction
succeeding, the constructed context is attached and the worker serves over
TLS, never in plaintext. -/
theorem C3_inbound_tls_selection (c : Config) (w : World) :
    (c.tlsServerCertFile = "" → c.tlsServerKeyFile = "" →
      Event.servePlain ∈ (workerBody c w).1
        ∧ Event.serveTLS ∉ (workerBody c w).1
        ∧ Event.buildServerTLS ∉ (workerBody c w).1)
  ∧ (c.tlsServerCertFile ≠ "" → c.tlsServerKeyFile ≠ "" → w.serverTLSOk = true →
      Event.buildServerTLS ∈ (workerBody c w).1
        ∧ Event.serveTLS ∈ (workerBody c w).1
        ∧ Event.servePlain ∉ (workerBody c w).1) := by
  constructor
  · intro h1 h2
    have hc : (c.tlsServerCertFile != "" && c.tlsServerKeyFile != "") = false := by
      simp [h1, h2]
    rcases serveHandle_shape w.serveResult with h | h <;>
      simp [workerBody, hc, andThen, h]
  · intro h1 h2 hok
    have hc : (c.tlsServerCertFile != "" && c.tlsServerKeyFile != "") = true := by
      simp [h1, h2]
    rcases serveHandle_shape w.serveResult with h | h <;>
      simp [workerBody, hc, hok, andThen, h]

/-- Concrete instantiation of C3_inbound_tls_selection: the baseline
configuration serves plaintext; the configuration with both server
certificate and key serves TLS. -/
theorem C3_inbound_tls_selection_witness :
    Event.servePlain ∈ (workerBody baseConfig okWorld).1
    ∧ Event.serveTLS ∈ (workerBody tlsConfig okWorld).1 := by
  constructor
  · exact ((C3_inbound_tls_selection baseConfig okWorld).1 rfl rfl).1
  · exact ((C3_inbound_tls_selection tlsConfig okWorld).2 (by decide) (by decide) rfl).2.1

/-- C4: when exactly one of the outbound client certificate and key paths is
non-empty, main exits fatally at the pairing check of lines 225-227 — before
the client TLS context is built and before the worker or any serving (and
hence any connection attempt) starts; when both or neither are supplied the
check passes and no pairing fatal ever occurs. The stage hypotheses say the
run survived the earlier, unrelated checks. -/
theorem C4_client_pair_check (c : Config) (w : World)
    (h1 : alive (timeoutStage c)) (h2 : alive (pwdStage c w))
    (h3 : alive (scriptStage c w)) (h4 : alive (exporterStage w)) :
    (((c.tlsClientCertFile != "") != (c.tlsClientKeyFile != "")) = true →
      Event.fatalClientPairMismatch ∈ mainTrace c w
        ∧ Event.createClientTLS ∉ mainTrace c w
        ∧ Event.spawnWorker ∉ mainTrace c w
        ∧ Event.servePlain ∉ mainTrace c w
        ∧ Event.serveTLS ∉ mainTrace c w)
  ∧ (((c.tlsClientCertFile != "") != (c.tlsClientKeyFile != "")) = false →
      Event.fatalClientPairMismatch ∉ mainTrace c w) := by
  constructor
  · intro hcp
    have hstage : clientPairStage c = ([Event.fatalClientPairMismatch], true) := by
      simp [clientPairStage, hcp]
    have hdec := mainTrace_clientPair_dead c w h1 h2 h3 h4 (by rw [hstage])
    rw [hdec, hstage]
    refine ⟨by simp, ?_, ?_, ?_, ?_⟩ <;>
    · intro hmem
      simp only [List.mem_append] at hmem
      rcases hmem with ((((hmem | hmem) | hmem) | hmem) | hmem)
      · rcases timeoutStage_shape c with k | k
        · rw [k] at hmem
          simp at hmem
        · rw [k] at h1
          simp [alive] at h1
      · rcases pwdStage_shape c w with k | k | k
        · rw [k] at hmem
          simp at hmem
        · rw [k] at hmem
          simp at hmem
        · rw [k] at h2
          simp [alive] at h2
      · rcases scriptStage_events c w _ hmem with ⟨p, k | k⟩ <;> simp at k
      · rcases exporterStage_shape w with k | k
        · rw [k] at hmem
          simp at hmem
        · rw [k] at h4
          simp [alive] at h4
      · simp at hmem
  · intro hcp
    have hstage : clientPairStage c = ([], false) := by
      simp [clientPairStage, hcp]
    intro hmem
    rcases mem_mainTrace_cases c w _ hmem with k | k | k | k | k | k | k | k | k
    · rcases timeoutStage_shape c with h | h <;> rw [h] at k <;> simp at k
    · rcases pwdStage_shape c w with h | h | h <;> rw [h] at k <;> simp at k
    · rcases scriptStage_events c w _ k with ⟨p, h | h⟩ <;> simp at h
    · rcases exporterStage_shape w with h | h <;> rw [h] at k <;> simp at k
    · rw [hstage] at k
      simp at k
    · rcases clientTLSStage_shape w with h | h <;> rw [h] at k <;> simp at k
    · simp at k
    · rcases workerBody_shape c w with h | h | h | h | h <;> rw [h] at k <;> simp at k
    · rcases signalStage_events w _ k with ⟨s, h⟩ | h | h | h <;> simp at h

/-- Concrete instantiation of C4_client_pair_check: a client certificate
path without a key path is fatal before the client TLS build and before any
serving; the baseline (neither supplied) never hits the pairing fatal. -/
theorem C4_client_pair_check_witness :
    (Event.fatalClientPairMismatch
        ∈ mainTrace { baseConfig with tlsClientCertFile := "client-cert.pem" } okWorld
      ∧ Event.spawnWorker
        ∉ mainTrace { baseConfig with tlsClientCertFile := "client-cert.pem" } okWorld)
    ∧ Event.fatalClientPairMismatch ∉ mainTrace baseConfig okWorld := by
  constructor
  · have h := (C4_client_pair_check { baseConfig with tlsClientCertFile := "client-cert.pem" }
      okWorld (by decide) (by decide) (by decide) (by decide)).1 (by decide)
    exact ⟨h.1, h.2.2.1⟩
  · exact (C4_client_pair_check baseConfig okWorld
      (by decide) (by decide) (by decide) (by decide)).2 (by decide)

/-- C5: in a run whose worker reached serving, the first pending termination
signal produces exactly one graceful-shutdown attempt, bounded by 10
seconds (the `shutdownBegin shutdownTimeoutSeconds` event occurs exactly
once in the whole trace), for every list of further pending signals: the
signal channel is read exactly once, so a second termination signal during
shutdown starts no second shutdown attempt. -/
theorem C5_single_shutdown (c : Config) (w : World) (s : Sig) (rest : List Sig)
    (hpre : preSpawnAlive c w) (hwb : alive (workerBody c w))
    (hsig : w.signals = s :: rest) :
    countEv (Event.shutdownBegin shutdownTimeoutSeconds) (mainTrace c w) = 1
    ∧ Event.recvSignal s ∈ mainTrace c w
    ∧ shutdownTimeoutSeconds = 10 := by
  obtain ⟨h1, h2, h3, h4, h5, h6⟩ := hpre
  have hdec := mainTrace_decomp_alive c w ⟨h1, h2, h3, h4, h5, h6⟩ hwb
  refine ⟨?_, ?_, rfl⟩
  · rw [hdec]
    simp only [countEv_append, List.append_assoc, countEv_cons]
    have k1 : countEv (Event.shutdownBegin shutdownTimeoutSeconds) (timeoutStage c).1 = 0 := by
      rcases timeoutStage_shape c with h | h <;> rw [h] <;> simp [countEv]
    have k2 : countEv (Event.shutdownBegin shutdownTimeoutSeconds) (pwdStage c w).1 = 0 := by
      rcases pwdStage_shape c w with h | h | h <;> rw [h] <;> simp [countEv]
    have k3 : countEv (Event.shutdownBegin shutdownTimeoutSeconds) (scriptStage c w).1 = 0 := by
      refine countEv_eq_zero _ _ (fun hm => ?_)
      rcases scriptStage_events c w _ hm with ⟨p, h | h⟩ <;> simp at h
    have k4 : countEv (Event.shutdownBegin shutdownTimeoutSeconds) (exporterStage w).1 = 0 := by
      rcases exporterStage_shape w with h | h <;> rw [h] <;> simp [countEv]
    have k5 : countEv (Event.shutdownBegin shutdownTimeoutSeconds) (clientPairStage c).1 = 0 := by
      rcases clientPairStage_shape c with h | h <;> rw [h] <;> simp [countEv]
    have k6 : countEv (Event.shutdownBegin shutdownTimeoutSeconds) (clientTLSStage w).1 = 0 := by
      rcases clientTLSStage_shape w with h | h <;> rw [h] <;> simp [countEv]
    have k7 : countEv (Event.shutdownBegin shutdownTimeoutSeconds) (workerBody c w).1 = 0 := by
      rcases workerBody_shape c w with h | h | h | h | h <;> rw [h] <;> simp [countEv]
    have k8 : countEv (Event.shutdownBegin shutdownTimeoutSeconds) (signalStage w).1 = 1 := by
      rcases signalStage_cons w s rest hsig with h | h <;> rw [h] <;> simp [countEv]
    rw [k1, k2, k3, k4, k5, k6, k7, k8]
    simp
  · rw [hdec]
    have : Event.recvSignal s ∈ (signalStage w).1 := by
      rcases signalStage_cons w s rest hsig with h | h <;> rw [h] <;> simp
    simp [this]

/-- Concrete instantiation of C5_single_shutdown: in the baseline run, and in
the same run with a second pending termination signal, the shutdown attempt
happens exactly once. -/
theorem C5_single_shutdown_witness :
    countEv (Event.shutdownBegin shutdownTimeoutSeconds) (mainTrace baseConfig okWorld) = 1
    ∧ countEv (Event.shutdownBegin shutdownTimeoutSeconds)
        (mainTrace baseConfig { okWorld with signals := [.sigint, .sigterm] }) = 1 := by
  constructor
  · exact (C5_single_shutdown baseConfig okWorld .sigint []
      ⟨by decide, by decide, by decide, by decide, by decide, by decide⟩ (by decide) rfl).1
  · exact (C5_single_shutdown baseConfig { okWorld with signals := [.sigint, .sigterm] }
      .sigint [.sigterm]
      ⟨by decide, by decide, by decide, by decide, by decide, by decide⟩ (by decide) rfl).1

/-- C6: when the serve loop ends with the distinguished server-closed
sentinel (recognized through the `errors.Is` chain walk, also when wrapped)
or with no error, no fatal is emitted; any other error returned by the serve
loop is fatal (provided the serve loop was reached at all, i.e. a TLS-mode
run got past the TLS construction). -/
theorem C6_server_closed_sentinel (c : Config) (w : World) :
    ((w.serveResult = none
        ∨ ∃ e, w.serveResult = some e ∧ errorsIsServerClosed e = true) →
      Event.fatalServeError ∉ (workerBody c w).1)
  ∧ (∀ e, w.serveResult = some e → errorsIsServerClosed e = false →
      ((c.tlsServerCertFile != "" && c.tlsServerKeyFile != "") = true →
        w.serverTLSOk = true) →
      Event.fatalServeError ∈ (workerBody c w).1) := by
  constructor
  · intro h
    have hsh : serveHandle w.serveResult = ([], false) := by
      rcases h with h | ⟨e, he, hc⟩
      · simp [serveHandle, h]
      · simp [serveHandle, he, hc]
    by_cases hc : (c.tlsServerCertFile != "" && c.tlsServerKeyFile != "") = true <;>
      by_cases hs : w.serverTLSOk = true <;>
      simp [workerBody, hc, hs, andThen, hsh]
  · intro e he hns hreach
    have hsh : serveHandle w.serveResult = ([Event.fatalServeError], true) := by
      simp [serveHandle, he, hns]
    by_cases hc : (c.tlsServerCertFile != "" && c.tlsServerKeyFile != "") = true
    · have hs := hreach hc
      simp [workerBody, hc, hs, andThen, hsh]
    · simp [workerBody, hc, andThen, hsh]

/-- Concrete instantiation of C6_server_closed_sentinel: a wrapped
server-closed sentinel is not fatal, while a bind failure is. -/
theorem C6_server_closed_sentinel_witness :
    Event.fatalServeError
      ∉ (workerBody baseConfig
          { okWorld with serveResult := some (.wrap "http server" .serverClosed) }).1
    ∧ Event.fatalServeError
      ∈ (workerBody baseConfig
          { okWorld with serveResult := some (.errMsg "listen tcp: address in use") }).1 := by
  constructor
  · exact (C6_server_closed_sentinel baseConfig _).1
      (Or.inr ⟨.wrap "http server" .serverClosed, rfl, rfl⟩)
  · exact (C6_server_closed_sentinel baseConfig _).2
      (.errMsg "listen tcp: address in use") rfl rfl (fun _ => rfl)

/-- C7 counterexample: in the code the server TLS context is constructed
inside the goroutine of lines 239-256, so in a TLS-mode run the worker
starts (the `go` statement runs) strictly before the TLS construction:
the construction does not complete before the background worker starts. -/
theorem C7_counterexample :
    Event.buildServerTLS ∈ mainTrace tlsConfig okWorld
    ∧ Event.spawnWorker ∈ mainTrace tlsConfig okWorld
    ∧ idxOfEv Event.spawnWorker (mainTrace tlsConfig okWorld)
        < idxOfEv Event.buildServerTLS (mainTrace tlsConfig okWorld) := by
  decide

/-- C7 amended: the server TLS context construction happens on the
background worker itself and fully completes before the listener starts
serving: whenever the worker reaches the TLS serve call, the construction
strictly precedes it in the worker's trace, so no server serves with a
partially-initialized transport. -/
theorem C7_tls_before_serving (c : Config) (w : World)
    (h : Event.serveTLS ∈ (workerBody c w).1) :
    Event.buildServerTLS ∈ (workerBody c w).1
    ∧ idxOfEv Event.buildServerTLS (workerBody c w).1
        < idxOfEv Event.serveTLS (workerBody c w).1 := by
  rcases workerBody_shape c w with k | k | k | k | k <;> rw [k] at h ⊢ <;>
    simp_all [idxOfEv]

/-- Concrete instantiation of C7_tls_before_serving at the TLS-mode
configuration. -/
theorem C7_tls_before_serving_witness :
    Event.serveTLS ∈ (workerBody tlsConfig okWorld).1
    ∧ (Event.buildServerTLS ∈ (workerBody tlsConfig okWorld).1
       ∧ idxOfEv Event.buildServerTLS (workerBody tlsConfig okWorld).1
           < idxOfEv Event.serveTLS (workerBody tlsConfig okWorld).1) :=
  ⟨by decide, C7_tls_before_serving tlsConfig okWorld (by decide)⟩

/-- C8: a connection-timeout string that fails duration parsing makes the
run abort fatally at once — the whole trace is the single fatal event, so
no password-file load, no script load, no worker spawn and no serving ever
happens — unlike the non-fatal leniency of the generic environment
resolvers, restated in the last conjunct. -/
theorem C8_timeout_parse_fatal (c : Config) (w : World)
    (h : parseDuration c.connectionTimeout = none) :
    mainTrace c w = [Event.fatalTimeoutParse]
    ∧ Event.loadPwdFile ∉ mainTrace c w
    ∧ (∀ p, Event.loadScript p ∉ mainTrace c w)
    ∧ Event.spawnWorker ∉ mainTrace c w
    ∧ Event.servePlain ∉ mainTrace c w
    ∧ Event.serveTLS ∉ mainTrace c w
    ∧ (∀ env key s d, lookupEnv env key = some s → parseBool s = none →
        getEnvBool env key d = d) := by
  have hstage : timeoutStage c = ([Event.fatalTimeoutParse], true) := by
    simp [timeoutStage, h]
  have hdec := mainTrace_timeout_dead c w (by rw [hstage])
  rw [hdec, hstage]
  refine ⟨rfl, by simp, by simp, by simp, by simp, by simp, ?_⟩
  intro env key s d hs hp
  simp [getEnvBool, hs, hp]

/-- Concrete instantiation of C8_timeout_parse_fatal: the unparseable
connection timeout "fifteen" kills the run before anything else. -/
theorem C8_timeout_parse_fatal_witness :
    mainTrace { baseConfig with connectionTimeout := "fifteen" }
        { okWorld with pwdFileOk := false }
      = [Event.fatalTimeoutParse] :=
  (C8_timeout_parse_fatal { baseConfig with connectionTimeout := "fifteen" }
    { okWorld with pwdFileOk := false } (by decide)).1

/-- Helper for C9: when the password stage does not consult the file (its
guard is false), the load event cannot appear anywhere in the trace. -/
theorem loadPwdFile_not_mem (c : Config) (w : World)
    (hpwd : pwdStage c w = ([], false)) : Event.loadPwdFile ∉ mainTrace c w := by
  intro hm
  rcases mem_mainTrace_cases c w _ hm with k | k | k | k | k | k | k | k | k
  · rcases timeoutStage_shape c with h | h <;> rw [h] at k <;> simp at k
  · rw [hpwd] at k
    simp at k
  · rcases scriptStage_events c w _ k with ⟨p, h | h⟩ <;> simp at h
  · rcases exporterStage_shape w with h | h <;> rw [h] at k <;> simp at k
  · rcases clientPairStage_shape c with h | h <;> rw [h] at k <;> simp at k
  · rcases clientTLSStage_shape w with h | h <;> rw [h] at k <;> simp at k
  · simp at k
  · rcases workerBody_shape c w with h | h | h | h | h <;> rw [h] at k <;> simp at k
  · rcases signalStage_events w _ k with ⟨s, h⟩ | h | h | h <;> simp at h

/-- C9: the password file is consulted exactly when the inline password is
empty and the file path is non-empty; with an inline password present (or no
path given) the file is never read anywhere in the run; and a failed load of
a consulted password file is fatal: the trace stops at the load failure,
before the exporter is built or the worker starts. -/
theorem C9_password_file_policy (c : Config) (w : World)
    (hto : alive (timeoutStage c)) :
    (c.redisPwd ≠ "" → Event.loadPwdFile ∉ mainTrace c w)
  ∧ (c.redisPwdFile = "" → Event.loadPwdFile ∉ mainTrace c w)
  ∧ (c.redisPwd = "" → c.redisPwdFile ≠ "" → Event.loadPwdFile ∈ mainTrace c w)
  ∧ (c.redisPwd = "" → c.redisPwdFile ≠ "" → w.pwdFileOk = false →
      mainTrace c w = [Event.parseTimeoutOk, Event.loadPwdFile, Event.fatalPwdLoad]) := by
  refine ⟨?_, ?_, ?_, ?_⟩
  · intro hp
    exact loadPwdFile_not_mem c w (by simp [pwdStage, hp])
  · intro hf
    exact loadPwdFile_not_mem c w (by simp [pwdStage, hf])
  · intro hp hf
    simp only [mainTrace, mem_andThen]
    refine Or.inr ⟨hto, Or.inl ?_⟩
    by_cases hok : w.pwdFileOk = true <;> simp [pwdStage, hp, hf, hok]
  · intro hp hf hok
    have hstage : pwdStage c w = ([Event.loadPwdFile, Event.fatalPwdLoad], true) := by
      simp [pwdStage, hp, hf, hok]
    have htimeout : timeoutStage c = ([Event.parseTimeoutOk], false) := by
      rcases timeoutStage_shape c with h | h
      · exact h
      · rw [h] at hto
        simp [alive] at hto
    have hdec := mainTrace_pwd_dead c w hto (by rw [hstage])
    rw [hdec, htimeout, hstage]
    rfl

/-- Concrete instantiation of C9_password_file_policy: with an inline
password the file is never read even though a path is set; with no inline
password and a failing file load the run dies right after the load. -/
theorem C9_password_file_policy_witness :
    Event.loadPwdFile
      ∉ mainTrace { baseConfig with redisPwd := "secret", redisPwdFile := "/run/pwds.json" }
          okWorld
    ∧ mainTrace { baseConfig with redisPwdFile := "/run/pwds.json" }
          { okWorld with pwdFileOk := false }
        = [Event.parseTimeoutOk, Event.loadPwdFile, Event.fatalPwdLoad] := by
  constructor
  · exact (C9_password_file_policy
      { baseConfig with redisPwd := "secret", redisPwdFile := "/run/pwds.json" }
      okWorld (by decide)).1 (by decide)
  · exact (C9_password_file_policy { baseConfig with redisPwdFile := "/run/pwds.json" }
      { okWorld with pwdFileOk := false } (by decide)).2.2.2 rfl (by decide) rfl

/-- C10: with exactly one of the inbound server certificate and key paths
supplied, the worker emits no error and no warning: it silently serves
plaintext and never builds (or fails to build) the server TLS context, so
the supplied path is never loaded — in contrast with the outbound client
pair, whose mismatch makes the pairing stage fatal (last conjunct). -/
theorem C10_server_pair_mismatch_lenient (c : Config) (w : World)
    (h : ((c.tlsServerCertFile != "") != (c.tlsServerKeyFile != "")) = true) :
    Event.servePlain ∈ (workerBody c w).1
    ∧ Event.buildServerTLS ∉ (workerBody c w).1
    ∧ Event.fatalServerTLS ∉ (workerBody c w).1
    ∧ Event.serveTLS ∉ (workerBody c w).1
    ∧ (∀ c2 : Config, ((c2.tlsClientCertFile != "") != (c2.tlsClientKeyFile != "")) = true →
        clientPairStage c2 = ([Event.fatalClientPairMismatch], true)) := by
  have hc : (c.tlsServerCertFile != "" && c.tlsServerKeyFile != "") = false := by
    cases hx : (c.tlsServerCertFile != "") <;> cases hy : (c.tlsServerKeyFile != "") <;>
      simp_all
  refine ⟨?_, ?_, ?_, ?_, fun c2 h2 => by simp [clientPairStage, h2]⟩ <;>
    rcases serveHandle_shape w.serveResult with hs | hs <;>
    simp [workerBody, hc, andThen, hs]

/-- Concrete instantiation of C10_server_pair_mismatch_lenient: a server
certificate without a key silently yields plaintext serving. -/
theorem C10_server_pair_mismatch_lenient_witness :
    Event.servePlain
      ∈ (workerBody { baseConfig with tlsServerCertFile := "server-cert.pem" } okWorld).1
    ∧ Event.buildServerTLS
      ∉ (workerBody { baseConfig with tlsServerCertFile := "server-cert.pem" } okWorld).1 := by
  have h := C10_server_pair_mismatch_lenient
    { baseConfig with tlsServerCertFile := "server-cert.pem" } okWorld (by decide)
  exact ⟨h.1, h.2.1⟩
